import Mathlib

/-!
Verification development for the wm-reactnative-cli expo-upgrade flow.

The JavaScript sources are shallowly embedded:
- `prompts.js`: the prompt-builder functions become Lean string functions over
  a JSON-value model of the parsed `package.json` object.
- `gemini-api.js` / `ollama-api.js`: the response-handling portion of the two
  HTTP clients becomes an `Except`-valued function over a model of the HTTP
  call's outcome.
- the expo-upgrade module (`resolveExpoDoctor`, `checkExpoDoctor`, the retry
  loop of `expoUpgrade`): the loop becomes a recursion over the per-attempt
  environment (diagnostic result, LLM reply, file-system facts), threading a
  state that records the manifest content on disk and the counters of
  diagnostic runs, LLM calls, manifest writes and reinstall invocations.
-/

mutual

/-- JSON values, restricted to the shapes a `package.json` document uses in
this flow: strings and objects with string keys.  Mirrors the parsed object
that `resolveExpoDoctor` reads and that the prompt builders serialize with
`JSON.stringify(packageJson, null, 2)`. -/
inductive JVal where
  | jstr : String → JVal
  | jobj : JFields → JVal

/-- Association list of fields of a JSON object (mutual with `JVal`). -/
inductive JFields where
  | fnil : JFields
  | fcons : String → JVal → JFields → JFields

end

/-- Escape one character the way `JSON.stringify` escapes characters inside a
JSON string literal (the common cases: quote, backslash, newline, carriage
return, tab). -/
def jsonEscapeChar (c : Char) : String :=
  if c = '\"' then "\\\""
  else if c = '\\' then "\\\\"
  else if c = '\n' then "\\n"
  else if c = '\r' then "\\r"
  else if c = '\t' then "\\t"
  else String.singleton c

/-- Escape a string the way `JSON.stringify` renders the inside of a JSON
string literal. -/
def jsonEscape (s : String) : String :=
  String.join (s.data.map jsonEscapeChar)

mutual

/-- Render a JSON value the way `JSON.stringify(v, null, 2)` renders it when
the value sits at a position whose own indentation prefix is `ind` (the empty
string at top level). -/
def renderJVal (ind : String) : JVal → String
  | .jstr s => "\"" ++ jsonEscape s ++ "\""
  | .jobj .fnil => "\x7b\x7d"
  | .jobj (JFields.fcons k v fs) =>
      "\x7b\n" ++ renderJFields (ind ++ "  ") (JFields.fcons k v fs) ++ "\n" ++ ind ++ "\x7d"

/-- Render the fields of a JSON object, one per line, each prefixed by the
indentation `ind`, separated by commas — the `JSON.stringify(v, null, 2)`
layout. -/
def renderJFields (ind : String) : JFields → String
  | .fnil => ""
  | .fcons k v .fnil => ind ++ "\"" ++ jsonEscape k ++ "\": " ++ renderJVal ind v
  | .fcons k v (JFields.fcons k2 v2 fs) =>
      ind ++ "\"" ++ jsonEscape k ++ "\": " ++ renderJVal ind v ++ ",\n"
        ++ renderJFields ind (JFields.fcons k2 v2 fs)

end

/-- Model of `JSON.stringify(packageJson, null, 2)` as used by both prompt
builders in `prompts.js`. -/
def jsonStringify2 (v : JVal) : String :=
  renderJVal "" v

/-- The fixed text of the expo-doctor repair prompt before the interpolated
error log (`prompts.js`, both templates start identically). -/
def expoDoctorPromptIntro : String :=
  "I\x27m getting an error when running \"npx expo doctor\" in my Expo project. Here\x27s the error:\n"

/-- The fixed text between the interpolated error log and the interpolated
`package.json` serialization. -/
def expoDoctorPromptMid : String :=
  "\n\nand the package.json is:\n"

/-- The fixed instruction text that follows the interpolated `package.json`
serialization in both templates of `prompts.js`. -/
def expoDoctorPromptRules : String :=
  "\n\nCRITICAL INSTRUCTIONS:\n1. Look for ALL lines in the error that say \"expected version: X.Y.Z\" \n2. Update EVERY package to use the EXACT version specified in the error\n3. Remove any packages that the error says should not be installed directly (like expo-modules-core)\n4. Keep all other packages that are not mentioned in the error\n5. Ignore Untested on New Architecture: message and all the dependencies that are mentioned in that section.\n\nFor example, if the error says:\n- expo@53.0.17 - expected version: 53.0.19\n- expo-build-properties@0.13.1 - expected version: ~0.14.8\n- @expo/vector-icons@14.0.2 - expected version: ^14.1.0\n\nThen update the package.json to use:\n- \"expo\": \"53.0.19\"\n- \"expo-build-properties\": \"~0.14.8\" \n- \"@expo/vector-icons\": \"^14.1.0\"\n\nIMPORTANT: Do NOT keep old versions. Use ONLY the versions specified in the error log. Do Not update devDependencies. When updating versions, remove ~ and ^.\n\nYour response should be in JSON format with the following structure:\n\x7b\n    \"data\": \"package.json JSON content\",\n    \"status\": \"success\" or \"error\"\n\x7d\n\nIMPORTANT: Set status to \"success\" ONLY if after applying the package.json updates, there would be NO remaining errors when running \"npx expo doctor\". If there would still be errors after the updates, set status to \"error\". Ignore the \"Untested on New Architecture\" section when analyzing remaining errors."

/-- `generateGeminiExpoDoctorPrompt(errorLog, packageJson)` from `prompts.js`:
a template literal interpolating the error log and
`JSON.stringify(packageJson, null, 2)` into the fixed instruction text. -/
def generateGeminiExpoDoctorPrompt (errorLog : String) (packageJson : JVal) : String :=
  expoDoctorPromptIntro ++ errorLog ++ expoDoctorPromptMid
    ++ jsonStringify2 packageJson ++ expoDoctorPromptRules

/-- `generateOllamaExpoDoctorPrompt(errorLog, packageJson)` from `prompts.js`:
its template text is byte-for-byte the same as the Gemini one. -/
def generateOllamaExpoDoctorPrompt (errorLog : String) (packageJson : JVal) : String :=
  expoDoctorPromptIntro ++ errorLog ++ expoDoctorPromptMid
    ++ jsonStringify2 packageJson ++ expoDoctorPromptRules

/-- Outcome of the single axios POST a client performs, as the client's error
handler distinguishes them: a 2xx response carrying a parsed JSON body of type
`α`; a non-2xx response (`error.response` set); or no response at all
(`error.request` set). -/
inductive HttpOutcome (α : Type) where
  | ok : α → HttpOutcome α
  | errorResponse : Nat → String → String → HttpOutcome α
  | noResponse : String → HttpOutcome α

/-- Model of JavaScript `String.prototype.trim()`: strip leading and trailing
whitespace.  The clients use it both for truthiness checks on arguments and to
clean the API key before splicing it into the URL. -/
def jsTrim (s : String) : String :=
  String.mk (((s.data.dropWhile Char.isWhitespace).reverse.dropWhile Char.isWhitespace).reverse)

/-- One part of a Gemini candidate's content; the `text` field may be absent
from the JSON (JavaScript `undefined`), hence `Option`. -/
structure GeminiPart where
  text : Option String

/-- The `content` object of a Gemini candidate. -/
structure GeminiContent where
  parts : List GeminiPart

/-- One element of the Gemini success envelope's `candidates` array; the
`content` field may be absent. -/
structure GeminiCandidate where
  content : Option GeminiContent

/-- The body of a 2xx Gemini response; the `candidates` field may be absent. -/
structure GeminiResponseData where
  candidates : Option (List GeminiCandidate)

/-- The body of a 2xx Ollama `/api/generate` response; the `response` field
may be absent. -/
structure OllamaResponseData where
  response : Option String

/-- Model of `callGeminiAPI` from `gemini-api.js`, with the HTTP exchange
abstracted into its outcome.  Mirrors: the input validation on the key and
prompt; the error handler turning a non-2xx response, a missing response, or
a setup error into distinct messages; and the extraction
`candidates[0].content.parts[0].text` guarded by
`candidates && candidates.length > 0` and
`content && content.parts && content.parts.length > 0` — when the guards fail
it throws `Invalid response format from Gemini API` (re-wrapped by the catch
block), but when they pass it returns `parts[0].text` as-is, which is
`undefined` (`none`) if the leaf `text` field is absent. -/
def callGeminiAPI (geminiKey userPrompt : String)
    (out : HttpOutcome GeminiResponseData) : Except String (Option String) :=
  if jsTrim geminiKey = "" then
    .error "Gemini API call failed: Gemini API key is required"
  else if jsTrim userPrompt = "" then
    .error "Gemini API call failed: User prompt is required"
  else
    match out with
    | .errorResponse status statusText body =>
        .error ("Gemini API request failed: " ++ toString status ++ " "
          ++ statusText ++ " - " ++ body)
    | .noResponse msg =>
        .error ("Gemini API request failed: No response received - " ++ msg)
    | .ok data =>
        match data.candidates with
        | some (c :: _) =>
            match c.content with
            | some content =>
                match content.parts with
                | p :: _ => .ok p.text
                | [] => .error "Gemini API call failed: Invalid response format from Gemini API"
            | none => .error "Gemini API call failed: Invalid response format from Gemini API"
        | some [] => .error "Gemini API call failed: Invalid response format from Gemini API"
        | none => .error "Gemini API call failed: Invalid response format from Gemini API"

/-- Model of `callOllamaAPI` from the Ollama client module, with the HTTP
exchange abstracted into its outcome.  Mirrors: the prompt validation, the
error handler, and the fact that on a 2xx response the function returns
`response.data.response` directly with no validation at all — `undefined`
(`none`) when the field is absent. -/
def callOllamaAPI (userPrompt : String)
    (out : HttpOutcome OllamaResponseData) : Except String (Option String) :=
  if jsTrim userPrompt = "" then
    .error "Ollama API call failed: User prompt is required"
  else
    match out with
    | .errorResponse status statusText body =>
        .error ("Ollama API request failed: " ++ toString status ++ " "
          ++ statusText ++ " - " ++ body)
    | .noResponse msg =>
        .error ("Ollama API request failed: No response received - " ++ msg)
    | .ok data => .ok data.response

/-- How one LLM consultation inside `resolveExpoDoctor` turns out, as the
code's control flow distinguishes the cases: the client call itself threw
(the outer `catch (aiError)`); the returned text failed `JSON.parse` (the
inner `catch (parseError)`); or it parsed, with `dataField` the truthy `data`
property when present (the manifest text that `fs.writeFileSync` writes) and
`statusField` the truthy `status` property when present. -/
inductive Reply where
  | apiError : String → Reply
  | unparseable : String → Reply
  | parsed : Option String → Option String → Reply
deriving DecidableEq

/-- Model of `resolveExpoDoctor` from the expo-upgrade module, with the LLM
exchange abstracted into the parsed shape of its reply.  Returns the status
string the function returns (`data.status` when the reply parsed and carried
a truthy `status`, the literal `"error"` on every other path) together with
the manifest content written to `package.json` during the call (`some` exactly
when the reply parsed and carried a truthy `data` property; `none` means no
write). -/
def resolveExpoDoctor (r : Reply) : String × Option String :=
  match r with
  | .apiError _ => ("error", none)
  | .unparseable _ => ("error", none)
  | .parsed dataField statusField =>
      match statusField with
      | some s => (s, dataField)
      | none => ("error", dataField)

/-- Outcome of one `npx expo-doctor` invocation as `checkExpoDoctor` sees it:
either `execa` itself threw (the surrounding `catch`), or the command ran and
yielded an exit code and combined output. -/
inductive DiagRun where
  | launchError : String → DiagRun
  | ran : Nat → String → DiagRun
deriving DecidableEq

/-- Decides whether a diagnostic invocation counts as failed for the loop:
a launch error, or a run with nonzero exit code. -/
def diagFailed : DiagRun → Bool
  | .launchError _ => true
  | .ran exitCode _ => exitCode ≠ 0

/-- Model of `checkExpoDoctor` from the expo-upgrade module.  Returns the
boolean it returns, the number of LLM consultations it performed (1 exactly
when the diagnostic ran and failed, since that branch always calls
`resolveExpoDoctor`), and the manifest content `resolveExpoDoctor` wrote, if
any.  On exit code 0 it returns `true` at once; on a nonzero exit it returns
`true` exactly when `resolveExpoDoctor`'s status equals `"success"` — with no
further diagnostic run; on a launch error it returns `false`. -/
def checkExpoDoctor (d : DiagRun) (r : Reply) : Bool × Nat × Option String :=
  match d with
  | .launchError _ => (false, 0, none)
  | .ran exitCode _ =>
      if exitCode = 0 then
        (true, 0, none)
      else
        let res := resolveExpoDoctor r
        (res.1 == "success", 1, res.2)

/-- Environment of one loop attempt in `expoUpgrade`: the diagnostic outcome,
the LLM reply for that attempt, whether `package-lock.json` and `node_modules`
exist when the retry branch calls `fs.rmSync` on them, and whether the in-loop
`npm install` succeeds. -/
structure AttemptEnv where
  diag : DiagRun
  reply : Reply
  lockExists : Bool
  nodeModulesExists : Bool
  installOk : Bool
deriving DecidableEq

/-- State threaded through the loop: the `package.json` content on disk and
the counters of diagnostic-runner invocations, LLM consultations, manifest
writes and in-loop reinstall invocations. -/
structure LoopState where
  manifest : String
  diagRuns : Nat
  llmCalls : Nat
  manifestWrites : Nat
  reinstalls : Nat
deriving DecidableEq

/-- Initial loop state over a given pre-loop manifest, all counters zero. -/
def initLoopState (manifest0 : String) : LoopState :=
  { manifest := manifest0, diagRuns := 0, llmCalls := 0
    manifestWrites := 0, reinstalls := 0 }

/-- Terminal outcome of `expoUpgrade`'s retry loop: the loop exits with
`expoDoctorPassed` true (`passed`) or false (`failed`), or an exception
escapes the loop / `installDependencies` calls `process.exit`, terminating
the process with the given exit code (`fatalExit`). -/
inductive LoopResult where
  | passed : LoopState → LoopResult
  | failed : LoopState → LoopResult
  | fatalExit : Nat → LoopState → LoopResult
deriving DecidableEq

/-- The state carried by a loop result, whichever way the loop ended. -/
def LoopResult.state : LoopResult → LoopState
  | .passed st => st
  | .failed st => st
  | .fatalExit _ st => st

/-- Model of the `while (!expoDoctorPassed && attempt <= maxAttempts)` loop of
`expoUpgrade`, over the list of per-attempt environments for the remaining
attempts (so `maxAttempts` is the length of the initial list, and
`attempt < maxAttempts` in the code corresponds to a nonempty tail).  Each
iteration runs `checkExpoDoctor`; if it returns `true` the loop exits passed.
Otherwise, when a further attempt remains, the code removes
`package-lock.json` and `node_modules` with `fs.rmSync` and no `force`
option — which throws if the path does not exist, the throw escaping to the
outer catch that calls `process.exit(1)` — and then reinstalls dependencies
(`installDependencies` itself calls `process.exit(1)` on failure). -/
def runAttempts : List AttemptEnv → LoopState → LoopResult
  | [], st => .failed st
  | e :: rest, st =>
      let c := checkExpoDoctor e.diag e.reply
      let st1 : LoopState :=
        { manifest := (c.2.2).getD st.manifest
          diagRuns := st.diagRuns + 1
          llmCalls := st.llmCalls + c.2.1
          manifestWrites := st.manifestWrites + (match c.2.2 with | some _ => 1 | none => 0)
          reinstalls := st.reinstalls }
      if c.1 then
        .passed st1
      else if rest.isEmpty then
        .failed st1
      else if !e.lockExists then
        .fatalExit 1 st1
      else if !e.nodeModulesExists then
        .fatalExit 1 st1
      else if !e.installOk then
        .fatalExit 1 st1
      else
        runAttempts rest
          { manifest := st1.manifest
            diagRuns := st1.diagRuns
            llmCalls := st1.llmCalls
            manifestWrites := st1.manifestWrites
            reinstalls := st1.reinstalls + 1 }

/-- The attempt budget hard-coded in `expoUpgrade` (`let maxAttempts = 5`). -/
def maxAttempts : Nat := 5


/-- Attempt environment where the diagnostic fails with exit code 1, the LLM
reply does not parse as JSON, and the lock file, `node_modules` and the
in-loop reinstall all behave normally. -/
def unparseableFailEnv : AttemptEnv :=
  { diag := DiagRun.ran 1 "err", reply := Reply.unparseable "not json"
    lockExists := true, nodeModulesExists := true, installOk := true }

/-- Attempt environment where the diagnostic fails and the LLM reply parses
with a `data` field and `status` equal to `"success"`. -/
def successReportEnv : AttemptEnv :=
  { diag := DiagRun.ran 1 "err", reply := Reply.parsed (some "FIXED") (some "success")
    lockExists := true, nodeModulesExists := true, installOk := true }

/-- Attempt environment where the diagnostic fails and the LLM reply parses
with a `data` field and `status` equal to `"error"`. -/
def dataErrorEnv : AttemptEnv :=
  { diag := DiagRun.ran 1 "err", reply := Reply.parsed (some "NEWPKG") (some "error")
    lockExists := true, nodeModulesExists := true, installOk := true }

/-- Attempt environment where the diagnostic fails, the reply does not parse,
and `package-lock.json` is absent when the retry branch reaches `fs.rmSync`. -/
def missingLockEnv : AttemptEnv :=
  { diag := DiagRun.ran 1 "err", reply := Reply.unparseable "not json"
    lockExists := false, nodeModulesExists := true, installOk := true }

/-- Attempt environment where the diagnostic fails and the LLM reply parses
with `status` `"success"` but no `data` field. -/
def successNoDataEnv : AttemptEnv :=
  { diag := DiagRun.ran 1 "err", reply := Reply.parsed none (some "success")
    lockExists := true, nodeModulesExists := true, installOk := true }

/-- C8: the prompt builders embed the error log and the
`JSON.stringify(packageJson, null, 2)` serialization of the manifest verbatim
as substrings of the produced prompt, for every error log and manifest — in
particular for a log containing `pkgA@1.0.0 - expected version: 1.2.0` and a
manifest holding `pkgA` at `^1.0.0`; nothing is summarized or truncated. -/
theorem promptContainsVerbatim (errorLog : String) (packageJson : JVal) :
    (∃ a b, generateGeminiExpoDoctorPrompt errorLog packageJson = a ++ errorLog ++ b) ∧
    (∃ a b, generateGeminiExpoDoctorPrompt errorLog packageJson
      = a ++ jsonStringify2 packageJson ++ b) ∧
    (∃ a b, generateOllamaExpoDoctorPrompt errorLog packageJson = a ++ errorLog ++ b) ∧
    (∃ a b, generateOllamaExpoDoctorPrompt errorLog packageJson
      = a ++ jsonStringify2 packageJson ++ b) := by
  refine ⟨⟨expoDoctorPromptIntro,
      expoDoctorPromptMid ++ jsonStringify2 packageJson ++ expoDoctorPromptRules, ?_⟩,
    ⟨expoDoctorPromptIntro ++ errorLog ++ expoDoctorPromptMid, expoDoctorPromptRules, ?_⟩,
    ⟨expoDoctorPromptIntro,
      expoDoctorPromptMid ++ jsonStringify2 packageJson ++ expoDoctorPromptRules, ?_⟩,
    ⟨expoDoctorPromptIntro ++ errorLog ++ expoDoctorPromptMid, expoDoctorPromptRules, ?_⟩⟩ <;>
  simp [generateGeminiExpoDoctorPrompt, generateOllamaExpoDoctorPrompt, String.append_assoc]

/-- C9: the prompt builders are deterministic, side-effect-free functions —
identical `(log, manifest)` inputs yield byte-identical prompt text for both
the Gemini and the Ollama generator. -/
theorem promptBuilderDeterministic (l1 l2 : String) (p1 p2 : JVal)
    (hl : l1 = l2) (hp : p1 = p2) :
    generateGeminiExpoDoctorPrompt l1 p1 = generateGeminiExpoDoctorPrompt l2 p2 ∧
    generateOllamaExpoDoctorPrompt l1 p1 = generateOllamaExpoDoctorPrompt l2 p2 := by
  subst hl
  subst hp
  exact ⟨rfl, rfl⟩

/-- Witness for C9 at a concrete log and manifest. -/
theorem promptBuilderDeterministic_witness :
    generateGeminiExpoDoctorPrompt "pkgA@1.0.0 - expected version: 1.2.0"
        (JVal.jobj (JFields.fcons "pkgA" (JVal.jstr "^1.0.0") JFields.fnil))
      = generateGeminiExpoDoctorPrompt "pkgA@1.0.0 - expected version: 1.2.0"
        (JVal.jobj (JFields.fcons "pkgA" (JVal.jstr "^1.0.0") JFields.fnil)) ∧
    generateOllamaExpoDoctorPrompt "pkgA@1.0.0 - expected version: 1.2.0"
        (JVal.jobj (JFields.fcons "pkgA" (JVal.jstr "^1.0.0") JFields.fnil))
      = generateOllamaExpoDoctorPrompt "pkgA@1.0.0 - expected version: 1.2.0"
        (JVal.jobj (JFields.fcons "pkgA" (JVal.jstr "^1.0.0") JFields.fnil)) :=
  promptBuilderDeterministic "pkgA@1.0.0 - expected version: 1.2.0"
    "pkgA@1.0.0 - expected version: 1.2.0"
    (JVal.jobj (JFields.fcons "pkgA" (JVal.jstr "^1.0.0") JFields.fnil))
    (JVal.jobj (JFields.fcons "pkgA" (JVal.jstr "^1.0.0") JFields.fnil)) rfl rfl

/-- C7: a first-attempt diagnostic pass (exit code 0) ends the loop passed
after exactly one diagnostic run, with no LLM call, no manifest write and no
in-loop reinstall. -/
theorem firstAttemptPassExact (e : AttemptEnv) (rest : List AttemptEnv)
    (st : LoopState) (out : String) (hd : e.diag = DiagRun.ran 0 out) :
    runAttempts (e :: rest) st =
      LoopResult.passed { manifest := st.manifest, diagRuns := st.diagRuns + 1,
                          llmCalls := st.llmCalls, manifestWrites := st.manifestWrites,
                          reinstalls := st.reinstalls } := by
  simp [runAttempts, checkExpoDoctor, hd]

/-- Witness for C7: a concrete run whose first diagnostic passes. -/
theorem firstAttemptPassExact_witness :
    runAttempts
        [{ diag := DiagRun.ran 0 "ok", reply := Reply.unparseable "x",
           lockExists := true, nodeModulesExists := true, installOk := true }]
        (initLoopState "m")
      = LoopResult.passed { manifest := "m", diagRuns := 1, llmCalls := 0,
                            manifestWrites := 0, reinstalls := 0 } :=
  firstAttemptPassExact _ [] (initLoopState "m") "ok" rfl

/-- The loop's counters grow by at most one diagnostic run and at most one
reinstall per remaining attempt, whatever the environment does. -/
theorem runAttempts_counters_le (envs : List AttemptEnv) (st : LoopState) :
    (runAttempts envs st).state.diagRuns ≤ st.diagRuns + envs.length ∧
    (runAttempts envs st).state.reinstalls ≤ st.reinstalls + envs.length := by
  induction envs generalizing st with
  | nil => simp [runAttempts, LoopResult.state]
  | cons e rest ih =>
      simp only [runAttempts, List.length_cons]
      split
      · simp only [LoopResult.state]
        omega
      · split
        · simp only [LoopResult.state]
          omega
        · split
          · simp only [LoopResult.state]
            omega
          · split
            · simp only [LoopResult.state]
              omega
            · split
              · simp only [LoopResult.state]
                omega
              · exact ⟨le_trans (ih _).1 (by dsimp only; omega),
                  le_trans (ih _).2 (by dsimp only; omega)⟩

/-- C3: with an environment list of length `maxAttempts`, the loop terminates
with at most `maxAttempts` diagnostic-runner invocations and at most
`maxAttempts` in-loop reinstall invocations, for every sequence of diagnostic
results and LLM replies; and whenever an attempt's check succeeds the loop
exits passed immediately. -/
theorem repairLoopBudget (envs : List AttemptEnv) (manifest0 : String)
    (h : envs.length = maxAttempts) :
    (runAttempts envs (initLoopState manifest0)).state.diagRuns ≤ maxAttempts ∧
    (runAttempts envs (initLoopState manifest0)).state.reinstalls ≤ maxAttempts ∧
    (∀ e rest st, (checkExpoDoctor e.diag e.reply).1 = true →
      ∃ st1, runAttempts (e :: rest) st = LoopResult.passed st1) := by
  obtain ⟨h1, h2⟩ := runAttempts_counters_le envs (initLoopState manifest0)
  rw [show (initLoopState manifest0).diagRuns = 0 from rfl, h] at h1
  rw [show (initLoopState manifest0).reinstalls = 0 from rfl, h] at h2
  refine ⟨by omega, by omega, ?_⟩
  intro e rest st hch
  refine ⟨{ manifest := ((checkExpoDoctor e.diag e.reply).2.2).getD st.manifest,
            diagRuns := st.diagRuns + 1,
            llmCalls := st.llmCalls + (checkExpoDoctor e.diag e.reply).2.1,
            manifestWrites := st.manifestWrites
              + (match (checkExpoDoctor e.diag e.reply).2.2 with | some _ => 1 | none => 0),
            reinstalls := st.reinstalls }, ?_⟩
  simp [runAttempts, hch]

/-- Witness for C3 at a concrete five-attempt environment. -/
theorem repairLoopBudget_witness :
    (runAttempts
        [unparseableFailEnv, unparseableFailEnv, unparseableFailEnv,
          unparseableFailEnv, unparseableFailEnv]
        (initLoopState "orig")).state.diagRuns ≤ maxAttempts ∧
    (runAttempts
        [unparseableFailEnv, unparseableFailEnv, unparseableFailEnv,
          unparseableFailEnv, unparseableFailEnv]
        (initLoopState "orig")).state.reinstalls ≤ maxAttempts ∧
    (∀ e rest st, (checkExpoDoctor e.diag e.reply).1 = true →
      ∃ st1, runAttempts (e :: rest) st = LoopResult.passed st1) :=
  repairLoopBudget
    [unparseableFailEnv, unparseableFailEnv, unparseableFailEnv,
      unparseableFailEnv, unparseableFailEnv] "orig" rfl

/-- Counterexample to C1: an environment in which every diagnostic invocation
fails, yet because the first attempt's LLM reply reports status `"success"`
the loop terminates with overall result passed after a single diagnostic run —
the pass outcome is taken from the LLM's self-report, not re-derived from a
fresh Diagnostic Runner invocation. -/
theorem llmSuccessTrusted_cex :
    (∀ e ∈ [successReportEnv, unparseableFailEnv, unparseableFailEnv,
        unparseableFailEnv, unparseableFailEnv], diagFailed e.diag = true) ∧
    runAttempts
        [successReportEnv, unparseableFailEnv, unparseableFailEnv,
          unparseableFailEnv, unparseableFailEnv] (initLoopState "orig")
      = LoopResult.passed { manifest := "FIXED", diagRuns := 1, llmCalls := 1,
                            manifestWrites := 1, reinstalls := 0 } := by
  refine ⟨?_, rfl⟩
  decide

/-- C1 as amended: when the diagnostic fails and the LLM reply parses with
status `"success"`, `checkExpoDoctor` reports the attempt passed immediately —
the loop terminates passed on that attempt with exactly one diagnostic run,
trusting the reported status without any fresh Diagnostic Runner invocation,
regardless of what later diagnostic runs would report. -/
theorem llmSuccessShortCircuits (e : AttemptEnv) (rest : List AttemptEnv)
    (st : LoopState) (n : Nat) (out : String) (dF : Option String)
    (hd : e.diag = DiagRun.ran (n + 1) out)
    (hr : e.reply = Reply.parsed dF (some "success")) :
    runAttempts (e :: rest) st =
      LoopResult.passed { manifest := dF.getD st.manifest, diagRuns := st.diagRuns + 1,
                          llmCalls := st.llmCalls + 1,
                          manifestWrites := st.manifestWrites
                            + (match dF with | some _ => 1 | none => 0),
                          reinstalls := st.reinstalls } := by
  cases dF with
  | none => simp [runAttempts, checkExpoDoctor, resolveExpoDoctor, hd, hr]
  | some d => simp [runAttempts, checkExpoDoctor, resolveExpoDoctor, hd, hr]

/-- Witness for the amended C1 at a concrete environment. -/
theorem llmSuccessShortCircuits_witness :
    runAttempts [successReportEnv] (initLoopState "orig") =
      LoopResult.passed { manifest := "FIXED", diagRuns := 1, llmCalls := 1,
                          manifestWrites := 1, reinstalls := 0 } :=
  llmSuccessShortCircuits successReportEnv [] (initLoopState "orig") 0 "err"
    (some "FIXED") rfl rfl

/-- Counterexample to C2: a run in which every diagnostic fails; the first
four replies are unparseable and the fifth — the final attempt — parses with a
`data` field and status `"error"`.  The loop ends failed, but the counters
show five LLM consultations (one on the final attempt) and the manifest on
disk equal to the final reply's `data` — the repair step (prompt build, LLM
call, manifest write) did run on the final attempt. -/
theorem finalAttemptRepairs_cex :
    runAttempts
        [unparseableFailEnv, unparseableFailEnv, unparseableFailEnv,
          unparseableFailEnv, dataErrorEnv] (initLoopState "orig")
      = LoopResult.failed { manifest := "NEWPKG", diagRuns := 5, llmCalls := 5,
                            manifestWrites := 1, reinstalls := 4 } := rfl

/-- C2 as amended: on the final attempt a failing diagnostic still triggers
the repair step — the LLM is consulted and, when the reply carries a `data`
field, the manifest is written; only the lock-file/`node_modules` removal and
the dependency reinstall are skipped on the final attempt, and the loop then
terminates failed when the resolved status is not `"success"`. -/
theorem finalAttemptStillRepairs (e : AttemptEnv) (st : LoopState)
    (n : Nat) (out : String)
    (hd : e.diag = DiagRun.ran (n + 1) out)
    (hs : (resolveExpoDoctor e.reply).1 ≠ "success") :
    runAttempts [e] st =
      LoopResult.failed { manifest := ((resolveExpoDoctor e.reply).2).getD st.manifest,
                          diagRuns := st.diagRuns + 1,
                          llmCalls := st.llmCalls + 1,
                          manifestWrites := st.manifestWrites
                            + (match (resolveExpoDoctor e.reply).2 with
                               | some _ => 1 | none => 0),
                          reinstalls := st.reinstalls } := by
  have hb : ((resolveExpoDoctor e.reply).1 == "success") = false := by
    simp [hs]
  simp [runAttempts, checkExpoDoctor, hd, hb]

/-- Witness for the amended C2 at a concrete final-attempt environment. -/
theorem finalAttemptStillRepairs_witness :
    runAttempts [dataErrorEnv] (initLoopState "orig") =
      LoopResult.failed { manifest := "NEWPKG", diagRuns := 1, llmCalls := 1,
                          manifestWrites := 1, reinstalls := 0 } :=
  finalAttemptStillRepairs dataErrorEnv (initLoopState "orig") 0 "err" rfl
    (by decide)

/-- C6: a reply that parses with `status` `"success"` but no `data` field
makes `resolveExpoDoctor` return `"success"` without writing the manifest;
`checkExpoDoctor` then reports the attempt passed, so the loop terminates
passed after that single diagnostic run, with no repair applied and no
further diagnostic invocation. -/
theorem successStatusNoData_passes (e : AttemptEnv) (rest : List AttemptEnv)
    (st : LoopState) (n : Nat) (out : String)
    (hd : e.diag = DiagRun.ran (n + 1) out)
    (hr : e.reply = Reply.parsed none (some "success")) :
    resolveExpoDoctor (Reply.parsed none (some "success")) = ("success", none) ∧
    (checkExpoDoctor e.diag e.reply).1 = true ∧
    runAttempts (e :: rest) st =
      LoopResult.passed { manifest := st.manifest, diagRuns := st.diagRuns + 1,
                          llmCalls := st.llmCalls + 1,
                          manifestWrites := st.manifestWrites,
                          reinstalls := st.reinstalls } := by
  refine ⟨rfl, ?_, ?_⟩
  · simp [checkExpoDoctor, resolveExpoDoctor, hd, hr]
  · simp [runAttempts, checkExpoDoctor, resolveExpoDoctor, hd, hr]

/-- Witness for C6 at a concrete environment. -/
theorem successStatusNoData_passes_witness :
    resolveExpoDoctor (Reply.parsed none (some "success")) = ("success", none) ∧
    (checkExpoDoctor successNoDataEnv.diag successNoDataEnv.reply).1 = true ∧
    runAttempts [successNoDataEnv, unparseableFailEnv] (initLoopState "orig") =
      LoopResult.passed { manifest := "orig", diagRuns := 1, llmCalls := 1,
                          manifestWrites := 0, reinstalls := 0 } :=
  successStatusNoData_passes successNoDataEnv [unparseableFailEnv]
    (initLoopState "orig") 0 "err" rfl rfl

/-- C10: when a non-final attempt fails and `package-lock.json` (or, with the
lock file present, `node_modules`) does not exist at the removal point, the
`fs.rmSync` call — made without a `force` option — throws; the error escapes
the retry loop to the outer catch, which terminates the whole upgrade with
process exit code 1: no reinstall happens and the loop does not continue to
the next attempt. -/
theorem missingLockFatal (e : AttemptEnv) (rest : List AttemptEnv)
    (st : LoopState) (hrest : rest ≠ [])
    (hfail : (checkExpoDoctor e.diag e.reply).1 = false)
    (hrm : e.lockExists = false ∨ (e.lockExists = true ∧ e.nodeModulesExists = false)) :
    ∃ st1, runAttempts (e :: rest) st = LoopResult.fatalExit 1 st1 ∧
      st1.reinstalls = st.reinstalls ∧ st1.diagRuns = st.diagRuns + 1 := by
  have hne : rest.isEmpty = false := by
    cases rest with
    | nil => exact absurd rfl hrest
    | cons r rs => rfl
  refine ⟨{ manifest := ((checkExpoDoctor e.diag e.reply).2.2).getD st.manifest,
            diagRuns := st.diagRuns + 1,
            llmCalls := st.llmCalls + (checkExpoDoctor e.diag e.reply).2.1,
            manifestWrites := st.manifestWrites
              + (match (checkExpoDoctor e.diag e.reply).2.2 with | some _ => 1 | none => 0),
            reinstalls := st.reinstalls }, ?_, rfl, rfl⟩
  rcases hrm with hl | ⟨hl, hn⟩
  · simp [runAttempts, hfail, hne, hl]
  · simp [runAttempts, hfail, hne, hl, hn]

/-- Witness for C10 at a concrete environment with the lock file missing. -/
theorem missingLockFatal_witness :
    ∃ st1, runAttempts [missingLockEnv, unparseableFailEnv] (initLoopState "m")
        = LoopResult.fatalExit 1 st1 ∧
      st1.reinstalls = 0 ∧ st1.diagRuns = 0 + 1 :=
  missingLockFatal missingLockEnv [unparseableFailEnv] (initLoopState "m")
    (by simp) rfl (Or.inl rfl)

/-- On a failed diagnostic with an unparseable reply, `checkExpoDoctor`
returns false and performs no manifest write. -/
theorem checkExpoDoctor_unparseable (d : DiagRun) (raw : String)
    (hd : diagFailed d = true) :
    (checkExpoDoctor d (Reply.unparseable raw)).1 = false ∧
    (checkExpoDoctor d (Reply.unparseable raw)).2.2 = none := by
  cases d with
  | launchError m => exact ⟨rfl, rfl⟩
  | ran n o =>
      cases n with
      | zero => simp [diagFailed] at hd
      | succ k => exact ⟨rfl, rfl⟩

/-- A loop in which every attempt's diagnostic fails, every reply is
unparseable, and the removal/reinstall machinery works, ends failed with the
manifest untouched, after one diagnostic run per attempt. -/
theorem runAttempts_all_unparseable (envs : List AttemptEnv) (st : LoopState)
    (h : ∀ e ∈ envs, diagFailed e.diag = true ∧
      (∃ raw, e.reply = Reply.unparseable raw) ∧
      e.lockExists = true ∧ e.nodeModulesExists = true ∧ e.installOk = true) :
    ∃ st1, runAttempts envs st = LoopResult.failed st1 ∧
      st1.manifest = st.manifest ∧ st1.manifestWrites = st.manifestWrites ∧
      st1.diagRuns = st.diagRuns + envs.length := by
  induction envs generalizing st with
  | nil => exact ⟨st, rfl, rfl, rfl, rfl⟩
  | cons e rest ih =>
      obtain ⟨hd, ⟨raw, hr⟩, hl, hn, hi⟩ := h e (List.mem_cons_self e rest)
      obtain ⟨hc1, hc2⟩ := checkExpoDoctor_unparseable e.diag raw hd
      rw [← hr] at hc1 hc2
      cases rest with
      | nil =>
          refine ⟨{ manifest := st.manifest,
                    diagRuns := st.diagRuns + 1,
                    llmCalls := st.llmCalls + (checkExpoDoctor e.diag e.reply).2.1,
                    manifestWrites := st.manifestWrites,
                    reinstalls := st.reinstalls }, ?_, rfl, rfl, rfl⟩
          simp [runAttempts, hc1, hc2]
      | cons r rs =>
          have hstep : runAttempts (e :: r :: rs) st
              = runAttempts (r :: rs)
                  { manifest := ((checkExpoDoctor e.diag e.reply).2.2).getD st.manifest,
                    diagRuns := st.diagRuns + 1,
                    llmCalls := st.llmCalls + (checkExpoDoctor e.diag e.reply).2.1,
                    manifestWrites := st.manifestWrites
                      + (match (checkExpoDoctor e.diag e.reply).2.2 with
                         | some _ => 1 | none => 0),
                    reinstalls := st.reinstalls + 1 } := by
            simp [runAttempts, hc1, hl, hn, hi]
          obtain ⟨st1, hrun, hm, hw, hdr⟩ :=
            ih { manifest := ((checkExpoDoctor e.diag e.reply).2.2).getD st.manifest,
                 diagRuns := st.diagRuns + 1,
                 llmCalls := st.llmCalls + (checkExpoDoctor e.diag e.reply).2.1,
                 manifestWrites := st.manifestWrites
                   + (match (checkExpoDoctor e.diag e.reply).2.2 with
                      | some _ => 1 | none => 0),
                 reinstalls := st.reinstalls + 1 }
              (fun e' he' => h e' (List.mem_cons_of_mem e he'))
          refine ⟨st1, hstep.trans hrun, ?_, ?_, ?_⟩
          · rw [hm]
            simp [hc2]
          · rw [hw]
            simp [hc2]
          · rw [hdr]
            simp only [List.length_cons]
            omega

/-- C4: an unparseable reply — or one that parses without a `data` field —
causes no manifest write in `resolveExpoDoctor` while the attempt still
counts; and when every diagnostic run fails, every reply is unparseable and
the removal/reinstall machinery works, the loop reports failed after
`maxAttempts` diagnostic runs with the manifest on disk equal to its pre-loop
value and zero manifest writes. -/
theorem unparseableReplyNoWrite (raw : String) (sF : Option String)
    (envs : List AttemptEnv) (manifest0 : String)
    (henvs : ∀ e ∈ envs, diagFailed e.diag = true ∧
      (∃ r, e.reply = Reply.unparseable r) ∧
      e.lockExists = true ∧ e.nodeModulesExists = true ∧ e.installOk = true)
    (hlen : envs.length = maxAttempts) :
    (resolveExpoDoctor (Reply.unparseable raw)).2 = none ∧
    (resolveExpoDoctor (Reply.parsed none sF)).2 = none ∧
    ∃ st1, runAttempts envs (initLoopState manifest0) = LoopResult.failed st1 ∧
      st1.manifest = manifest0 ∧ st1.manifestWrites = 0 ∧
      st1.diagRuns = maxAttempts := by
  refine ⟨rfl, ?_, ?_⟩
  · cases sF with
    | none => rfl
    | some s => rfl
  · obtain ⟨st1, hrun, hm, hw, hdr⟩ :=
      runAttempts_all_unparseable envs (initLoopState manifest0) henvs
    exact ⟨st1, hrun, hm, hw, by rw [hdr, hlen]; simp [initLoopState]⟩

/-- Witness for C4 at a concrete five-attempt environment of unparseable
replies over failing diagnostics. -/
theorem unparseableReplyNoWrite_witness :
    (resolveExpoDoctor (Reply.unparseable "oops")).2 = none ∧
    (resolveExpoDoctor (Reply.parsed none (some "success"))).2 = none ∧
    ∃ st1, runAttempts
        [unparseableFailEnv, unparseableFailEnv, unparseableFailEnv,
          unparseableFailEnv, unparseableFailEnv]
        (initLoopState "orig") = LoopResult.failed st1 ∧
      st1.manifest = "orig" ∧ st1.manifestWrites = 0 ∧
      st1.diagRuns = maxAttempts :=
  unparseableReplyNoWrite "oops" (some "success")
    [unparseableFailEnv, unparseableFailEnv, unparseableFailEnv,
      unparseableFailEnv, unparseableFailEnv] "orig"
    (by
      intro e he
      simp only [List.mem_cons, List.not_mem_nil, or_false] at he
      rcases he with rfl | rfl | rfl | rfl | rfl <;>
        exact ⟨rfl, ⟨"not json", rfl⟩, rfl, rfl, rfl⟩)
    rfl

/-- Counterexample to C5: success responses that lack the expected text field
on which the client does not fail — the Ollama client returns JavaScript
`undefined` (modelled `none`) when the `response` field is absent, and the
Gemini client likewise returns `undefined` when the envelope is present but
the leaf `text` field is missing; neither is a ProtocolError. -/
theorem protocolError_cex :
    callOllamaAPI "p" (HttpOutcome.ok { response := none }) = Except.ok none ∧
    callGeminiAPI "geminikey123" "p"
        (HttpOutcome.ok { candidates := some [{ content := some { parts := [{ text := none }] } }] })
      = Except.ok none := by
  exact ⟨rfl, rfl⟩

/-- C5 as amended: only the Gemini client validates the success envelope — a
missing or empty `candidates` array, a missing `content`, or an empty `parts`
array makes it fail with the Invalid-response-format error; but a present
envelope whose leaf `text` field is absent is returned as a missing value,
and the Ollama client performs no validation at all, returning the `response`
field as-is (a missing value when absent) instead of failing with a
ProtocolError. -/
theorem protocolError_amended (key p : String)
    (hk : jsTrim key ≠ "") (hp : jsTrim p ≠ "") :
    callGeminiAPI key p (HttpOutcome.ok { candidates := none })
      = Except.error "Gemini API call failed: Invalid response format from Gemini API" ∧
    callGeminiAPI key p (HttpOutcome.ok { candidates := some [] })
      = Except.error "Gemini API call failed: Invalid response format from Gemini API" ∧
    callGeminiAPI key p (HttpOutcome.ok { candidates := some [{ content := none }] })
      = Except.error "Gemini API call failed: Invalid response format from Gemini API" ∧
    callGeminiAPI key p
        (HttpOutcome.ok { candidates := some [{ content := some { parts := [] } }] })
      = Except.error "Gemini API call failed: Invalid response format from Gemini API" ∧
    (∀ t : Option String, callGeminiAPI key p
        (HttpOutcome.ok { candidates := some [{ content := some { parts := [{ text := t }] } }] })
      = Except.ok t) ∧
    (∀ body : OllamaResponseData,
      callOllamaAPI p (HttpOutcome.ok body) = Except.ok body.response) := by
  refine ⟨?_, ?_, ?_, ?_, ?_, ?_⟩ <;>
    simp [callGeminiAPI, callOllamaAPI, hk, hp]

/-- Witness for the amended C5 at a concrete key and prompt. -/
theorem protocolError_amended_witness :
    callGeminiAPI "geminikey123" "p" (HttpOutcome.ok { candidates := none })
      = Except.error "Gemini API call failed: Invalid response format from Gemini API" ∧
    callGeminiAPI "geminikey123" "p" (HttpOutcome.ok { candidates := some [] })
      = Except.error "Gemini API call failed: Invalid response format from Gemini API" ∧
    callGeminiAPI "geminikey123" "p"
        (HttpOutcome.ok { candidates := some [{ content := none }] })
      = Except.error "Gemini API call failed: Invalid response format from Gemini API" ∧
    callGeminiAPI "geminikey123" "p"
        (HttpOutcome.ok { candidates := some [{ content := some { parts := [] } }] })
      = Except.error "Gemini API call failed: Invalid response format from Gemini API" ∧
    (∀ t : Option String, callGeminiAPI "geminikey123" "p"
        (HttpOutcome.ok { candidates := some [{ content := some { parts := [{ text := t }] } }] })
      = Except.ok t) ∧
    (∀ body : OllamaResponseData,
      callOllamaAPI "p" (HttpOutcome.ok body) = Except.ok body.response) :=
  protocolError_amended "geminikey123" "p" (by decide) (by decide)
